import Mathlib

/-!
Shallow embedding of the backtest simulation core of `src/services/backtesting.py`
(class `BacktestEngine` and its helpers), over exact rational arithmetic.

Conventions of the embedding:
* Python floats are modelled as `Rat`; all the claims under study are exact
  arithmetic relations, and the source guards every division that the claims
  touch (`price_risk <= 0`, `gross_loss > 0`, `total_trades > 0`, ...).
* Python dicts used as records (`signal`, trade records, positions) become
  structures; a key accessed with `.get(k, d)` becomes an `Option` field read
  with `Option.getD`.
* The `positions` dict (symbol -> position) becomes an association list with
  dict-like lookup / assignment (replace first binding) / `del` (drop first
  binding); within one run only the configured symbol is ever used as a key.
* `try/except` blocks that swallow exceptions and return `None` are modelled by
  returning `none` exactly where the Python body can raise (the only reachable
  raise inside `_execute_backtest_trade` is the `ZeroDivisionError` of
  `(balance * 0.95) / price` when `price == 0`).
* The Sharpe-ratio field of `BacktestResult` is not modelled: it needs
  real-valued `sqrt`, and no claim refers to it.  The `datetime` derived
  metrics (`trading_period_days`, `trades_per_day`) are likewise omitted; no
  claim refers to them.
-/

/-- One OHLCV bar (a row of the historical `DataFrame`).  Only `close` and the
index timestamp are read by the simulation loop. -/
structure Bar where
  timestamp : Nat
  open_price : Rat
  high : Rat
  low : Rat
  close : Rat
  volume : Rat
deriving DecidableEq, Repr, Inhabited

/-- Embeds `strategy_config`: the keys read by the engine (`symbol`,
`risk_percentage`, `commission_rate`), with the source defaults applied by the
caller. -/
structure Config where
  symbol : String
  risk_percentage : Rat
  commission_rate : Rat
deriving DecidableEq, Repr, Inhabited

/-- A signal dict as produced by `_generate_backtest_signal` (and as consumed
by `_execute_backtest_trade`, which reads `stop_loss` / `take_profit` with
`.get` defaults, hence the `Option` fields). -/
structure Signal where
  action : String
  confidence : Nat
  entry_price : Rat
  stop_loss : Option Rat
  take_profit : Option Rat
  reasoning : String
deriving DecidableEq, Repr, Inhabited

/-- An entry of the `positions` dict. -/
structure Position where
  side : String
  quantity : Rat
  entry_price : Rat
  stop_loss : Rat
  take_profit : Rat
deriving DecidableEq, Repr, Inhabited

/-- The `positions` dict: symbol -> open position, as an association list. -/
abbrev Positions := List (String × Position)

/-- Dict lookup: `positions[symbol]` / `symbol in positions`. -/
def posLookup : Positions → String → Option Position
  | [], _ => none
  | (k, v) :: rest, symbol => if k = symbol then some v else posLookup rest symbol

/-- Dict assignment `positions[symbol] = pos`: replace the first binding of the
key, else append. -/
def posInsert : Positions → String → Position → Positions
  | [], symbol, pos => [(symbol, pos)]
  | (k, v) :: rest, symbol, pos =>
    if k = symbol then (symbol, pos) :: rest else (k, v) :: posInsert rest symbol pos

/-- Embeds `del positions[symbol]`: drop the first binding of the key. -/
def posErase : Positions → String → Positions
  | [], _ => []
  | (k, v) :: rest, symbol => if k = symbol then rest else (k, v) :: posErase rest symbol

/-- A trade dict as returned by `_execute_backtest_trade`.  BUY records carry
no `pnl` key (`pnl := none`); SELL close records carry one. -/
structure TradeRecord where
  timestamp : Nat
  symbol : String
  side : String
  quantity : Rat
  price : Rat
  value : Rat
  commission : Rat
  pnl : Option Rat
  new_balance : Rat
  new_positions : Positions
deriving DecidableEq, Repr, Inhabited

/-- An equity-curve dict appended once per bar by `run_backtest`. -/
structure EquityPoint where
  timestamp : Nat
  balance : Rat
  portfolio_value : Rat
  price : Rat
deriving DecidableEq, Repr, Inhabited

/-- Embeds `profit_factor`: either a finite ratio or the `float('inf')` sentinel. -/
inductive ProfitFactor where
  | finite (q : Rat)
  | inf
deriving DecidableEq, Repr

/-- The `metrics` dict of `_calculate_backtest_metrics` (the fields the claims
touch; the `datetime`-based fields are omitted, see the header comment). -/
structure DerivedMetrics where
  total_commission : Rat
  average_win : Rat
  average_loss : Rat
  largest_win : Rat
  largest_loss : Rat
  consecutive_wins : Nat
  consecutive_losses : Nat
deriving DecidableEq, Repr

/-- Embeds `BacktestResult` (dataclass), minus the unmodelled `sharpe_ratio`. -/
structure BacktestResult where
  start_date : Nat
  end_date : Nat
  initial_balance : Rat
  final_balance : Rat
  total_return : Rat
  total_trades : Nat
  winning_trades : Nat
  losing_trades : Nat
  win_rate : Rat
  profit_factor : ProfitFactor
  max_drawdown : Rat
  trades : List TradeRecord
  equity_curve : List EquityPoint
  metrics : DerivedMetrics
deriving DecidableEq, Repr

/-- Embeds `BacktestEngine._execute_backtest_trade(signal, timestamp, price, balance,
positions, config)`.  Returns `none` where the Python function returns `None`
(degenerate risk, insufficient funds, SELL while flat or non-LONG, unknown
action) or where its `except` handler catches the `ZeroDivisionError` of the
cap branch at `price = 0`. -/
def _execute_backtest_trade (signal : Signal) (timestamp : Nat) (price : Rat)
    (balance : Rat) (positions : Positions) (config : Config) : Option TradeRecord :=
  let symbol := config.symbol
  let risk_percentage := config.risk_percentage
  let commission_rate := config.commission_rate
  let risk_amount := balance * (risk_percentage / 100)
  let stop_loss := signal.stop_loss.getD (price * (49 / 50))
  let price_risk := |price - stop_loss|
  if price_risk ≤ 0 then none
  else
    let quantity₀ := risk_amount / price_risk
    let position_value₀ := quantity₀ * price
    -- Python: `quantity = (balance * 0.95) / price` raises ZeroDivisionError
    -- when `price == 0`; the surrounding `except` returns None.
    if position_value₀ > balance * (19 / 20) ∧ price = 0 then none
    else
      let quantity :=
        if position_value₀ > balance * (19 / 20) then balance * (19 / 20) / price
        else quantity₀
      let position_value := quantity * price
      let commission := position_value * commission_rate
      if signal.action = "BUY" then
        if balance < position_value + commission then none
        else
          some { timestamp := timestamp
                 symbol := symbol
                 side := "BUY"
                 quantity := quantity
                 price := price
                 value := position_value
                 commission := commission
                 pnl := none
                 new_balance := balance - position_value - commission
                 new_positions := posInsert positions symbol
                   { side := "LONG"
                     quantity := quantity
                     entry_price := price
                     stop_loss := stop_loss
                     take_profit := signal.take_profit.getD (price * (26 / 25)) } }
      else if signal.action = "SELL" then
        match posLookup positions symbol with
        | some position =>
          if position.side = "LONG" then
            let sell_value := position.quantity * price
            let sell_commission := sell_value * commission_rate
            let buy_value := position.quantity * position.entry_price
            let pnl := sell_value - buy_value - commission - sell_commission
            some { timestamp := timestamp
                   symbol := symbol
                   side := "SELL"
                   quantity := position.quantity
                   price := price
                   value := sell_value
                   commission := sell_commission
                   pnl := some pnl
                   new_balance := balance + sell_value - sell_commission
                   new_positions := posErase positions symbol }
          else none
        | none => none
      else none

/-- The trailing `n` elements of a list (what `rolling(n).mean().iloc[-1]`
averages over, once `n` values exist). -/
def lastN (l : List Rat) (n : Nat) : List Rat := l.drop (l.length - n)

/-- Embeds `BacktestEngine._generate_backtest_signal(current_data, historical_data,
config)`: SMA(20)/SMA(50) crossover over the close-price history. -/
def _generate_backtest_signal (current_data : Bar) (historical_data : List Bar)
    (_config : Config) : Option Signal :=
  if historical_data.length < 20 then none
  else
    let close_prices := historical_data.map (·.close)
    let sma_20 := (lastN close_prices 20).sum / 20
    let sma_50 :=
      if 50 ≤ close_prices.length then (lastN close_prices 50).sum / 50 else sma_20
    let current_price := current_data.close
    if current_price > sma_20 ∧ sma_20 > sma_50 then
      some { action := "BUY"
             confidence := 75
             entry_price := current_price
             stop_loss := some (current_price * (49 / 50))
             take_profit := some (current_price * (26 / 25))
             reasoning := "Price above SMA20, SMA20 above SMA50" }
    else if current_price < sma_20 ∧ sma_20 < sma_50 then
      some { action := "SELL"
             confidence := 75
             entry_price := current_price
             stop_loss := some (current_price * (51 / 50))
             take_profit := some (current_price * (24 / 25))
             reasoning := "Price below SMA20, SMA20 below SMA50" }
    else none

/-- Embeds `BacktestEngine._calculate_portfolio_value(balance, positions,
current_price)`. -/
def _calculate_portfolio_value (balance : Rat) (positions : Positions)
    (current_price : Rat) : Rat :=
  positions.foldl
    (fun acc entry =>
      if entry.2.side = "LONG" then acc + entry.2.quantity * current_price else acc)
    balance

/-- Mutable loop state of `run_backtest`: `balance`, `positions`, `trades`,
`equity_curve`. -/
structure RunState where
  balance : Rat
  positions : Positions
  trades : List TradeRecord
  equity_curve : List EquityPoint
deriving DecidableEq, Repr

/-- Loop state before the first bar. -/
def initRunState (initial_balance : Rat) : RunState :=
  { balance := initial_balance, positions := [], trades := [], equity_curve := [] }

/-- The signal computed at bar index `i` of the loop: the source calls
`_generate_backtest_signal(row, data.loc[:timestamp], config)`; with the
strictly increasing timestamps of the data model, the label slice
`data.loc[:timestamp]` is exactly the positional slice through the current bar,
`bars.take (i+1)`. -/
def signalAtBar (config : Config) (bars : List Bar) (i : Nat) : Option Signal :=
  _generate_backtest_signal (bars.getD i default) (bars.take (i + 1)) config

/-- The equity dict appended for one bar, computed from the loop state as it
stands when the bar is reached (before the bar's signal is evaluated). -/
def equityPointFor (st : RunState) (bar : Bar) : EquityPoint :=
  { timestamp := bar.timestamp
    balance := st.balance
    portfolio_value := _calculate_portfolio_value st.balance st.positions bar.close
    price := bar.close }

/-- One iteration of the `for timestamp, row in data.iterrows()` loop of
`run_backtest`, at bar index `i`: append the equity point, then evaluate the
signal and (when actionable and accepted) apply the trade record to the state. -/
def stepBar (config : Config) (bars : List Bar) (st : RunState) (i : Nat) : RunState :=
  let bar := bars.getD i default
  let current_price := bar.close
  let equity_curve := st.equity_curve ++ [equityPointFor st bar]
  let after :=
    match signalAtBar config bars i with
    | some signal =>
      if signal.action = "BUY" ∨ signal.action = "SELL" then
        match _execute_backtest_trade signal bar.timestamp current_price
            st.balance st.positions config with
        | some trade_result =>
          (trade_result.new_balance, trade_result.new_positions,
            st.trades ++ [trade_result])
        | none => (st.balance, st.positions, st.trades)
      else (st.balance, st.positions, st.trades)
    | none => (st.balance, st.positions, st.trades)
  { balance := after.1
    positions := after.2.1
    trades := after.2.2
    equity_curve := equity_curve }

/-- Loop state after the first `n` bars have been processed. -/
def stateAt (config : Config) (bars : List Bar) (initial_balance : Rat) : Nat → RunState
  | 0 => initRunState initial_balance
  | n + 1 => stepBar config bars (stateAt config bars initial_balance n) n

/-- Embeds `_calculate_consecutive_wins(trades)`: fold carrying
(current streak, best streak) over the whole trade list, counting trades with
`trade.get('pnl', 0) > 0`. -/
def _calculate_consecutive_wins (trades : List TradeRecord) : Nat :=
  (trades.foldl
    (fun acc t =>
      if t.pnl.getD 0 > 0 then (acc.1 + 1, max acc.2 (acc.1 + 1)) else (0, acc.2))
    ((0, 0) : Nat × Nat)).2

/-- Embeds `_calculate_consecutive_losses(trades)`: same fold with
`trade.get('pnl', 0) < 0`. -/
def _calculate_consecutive_losses (trades : List TradeRecord) : Nat :=
  (trades.foldl
    (fun acc t =>
      if t.pnl.getD 0 < 0 then (acc.1 + 1, max acc.2 (acc.1 + 1)) else (0, acc.2))
    ((0, 0) : Nat × Nat)).2

/-- Embeds `sum(t['pnl'] for t in profitable_trades)` where `profitable_trades` are
the trades with `t.get('pnl', 0) > 0`. -/
def gross_profit_of (trades : List TradeRecord) : Rat :=
  ((trades.filter (fun t => t.pnl.getD 0 > 0)).map (fun t => t.pnl.getD 0)).sum

/-- Embeds `abs(sum(t['pnl'] for t in losing_trades))` where `losing_trades` are the
trades with `t.get('pnl', 0) < 0`. -/
def gross_loss_of (trades : List TradeRecord) : Rat :=
  |((trades.filter (fun t => t.pnl.getD 0 < 0)).map (fun t => t.pnl.getD 0)).sum|

/-- Embeds `profit_factor = (gross_profit / gross_loss) if gross_loss > 0 else
float('inf')`. -/
def profit_factor_of (trades : List TradeRecord) : ProfitFactor :=
  if 0 < gross_loss_of trades then
    ProfitFactor.finite (gross_profit_of trades / gross_loss_of trades)
  else ProfitFactor.inf

/-- The drawdown loop of `_calculate_backtest_metrics`: update the running
peak, compute `(peak - value) / peak * 100`, keep the running maximum. -/
def drawdownLoop : List Rat → Rat → Rat → Rat
  | [], _, max_drawdown => max_drawdown
  | value :: rest, peak, max_drawdown =>
    let peak' := if value > peak then value else peak
    let drawdown := (peak' - value) / peak' * 100
    drawdownLoop rest peak' (max max_drawdown drawdown)

/-- Embeds `max_drawdown` over a portfolio-value list: peak starts at
`portfolio_values[0]`, the loop then visits every value (the first one again
included).  The source indexes `portfolio_values[0]`, so it is only ever called
on a non-empty list (`run_backtest` appends one equity point per bar and
requires at least one bar). -/
def maxDrawdownOf : List Rat → Rat
  | [] => 0
  | value :: rest => drawdownLoop (value :: rest) value 0

/-- Python `max(l, default=0)`. -/
def maxD : List Rat → Rat
  | [] => 0
  | x :: xs => xs.foldl max x

/-- Python `min(l, default=0)`. -/
def minD : List Rat → Rat
  | [] => 0
  | x :: xs => xs.foldl min x

/-- Embeds `BacktestEngine._calculate_backtest_metrics(trades, equity_curve,
initial_balance, final_balance, start_date, end_date)`. -/
def _calculate_backtest_metrics (trades : List TradeRecord)
    (equity_curve : List EquityPoint) (initial_balance final_balance : Rat)
    (start_date end_date : Nat) : BacktestResult :=
  let total_return := (final_balance - initial_balance) / initial_balance * 100
  let total_trades := (trades.filter (fun t => t.pnl.isSome)).length
  let profitable_trades := trades.filter (fun t => t.pnl.getD 0 > 0)
  let losing_trades := trades.filter (fun t => t.pnl.getD 0 < 0)
  let winning_trades := profitable_trades.length
  let losing_count := losing_trades.length
  let win_rate :=
    if 0 < total_trades then (winning_trades : Rat) / (total_trades : Rat) * 100 else 0
  let gross_profit := gross_profit_of trades
  let gross_loss := gross_loss_of trades
  let max_drawdown := maxDrawdownOf (equity_curve.map (·.portfolio_value))
  { start_date := start_date
    end_date := end_date
    initial_balance := initial_balance
    final_balance := final_balance
    total_return := total_return
    total_trades := total_trades
    winning_trades := winning_trades
    losing_trades := losing_count
    win_rate := win_rate
    profit_factor := profit_factor_of trades
    max_drawdown := max_drawdown
    trades := trades
    equity_curve := equity_curve
    metrics :=
      { total_commission := (trades.map (·.commission)).sum
        average_win := if 0 < winning_trades then gross_profit / winning_trades else 0
        average_loss := if 0 < losing_count then gross_loss / losing_count else 0
        largest_win := maxD (profitable_trades.map (fun t => t.pnl.getD 0))
        largest_loss := minD (losing_trades.map (fun t => t.pnl.getD 0))
        consecutive_wins := _calculate_consecutive_wins trades
        consecutive_losses := _calculate_consecutive_losses trades } }

/-- Spec-side comparison definition, following the spec's words (§4.3): on a
SELL close, `realized_pnl = sell_notional − (quantity × entry_price) −
entry_commission − sell_commission`, where the commission charged on the
opening BUY of the stored position was `(quantity × entry_price) ×
commission_rate` (the source charges `position_value * commission_rate` when
opening). -/
def spec_realized_pnl (position : Position) (price commission_rate : Rat) : Rat :=
  position.quantity * price - position.quantity * position.entry_price -
    position.quantity * position.entry_price * commission_rate -
    position.quantity * price * commission_rate

/-- Spec-side comparison definition: length of the longest run of consecutive
elements satisfying `p`, with any element breaking `p` resetting the run;
`cur` is the length of the run in progress. -/
def spec_max_run (p : α → Prop) [DecidablePred p] : Nat → List α → Nat
  | cur, [] => cur
  | cur, x :: rest =>
    if p x then spec_max_run p (cur + 1) rest
    else max cur (spec_max_run p 0 rest)

/-- Spec-side comparison definition, following the spec's words (§4.5):
longest run of consecutive closing trades (trades carrying a `realized_pnl`),
in chronological order, with `realized_pnl > 0`. -/
def spec_consecutive_wins (trades : List TradeRecord) : Nat :=
  spec_max_run (fun t => t.pnl.getD 0 > 0) 0 (trades.filter (fun t => t.pnl.isSome))

/-- Spec-side comparison definition: longest run of consecutive closing trades
with `realized_pnl < 0`. -/
def spec_consecutive_losses (trades : List TradeRecord) : Nat :=
  spec_max_run (fun t => t.pnl.getD 0 < 0) 0 (trades.filter (fun t => t.pnl.isSome))

/-- Spec-side comparison definition, following the spec's words (§4.5): the
per-point drawdowns `(peak − value) / peak × 100`, where `peak` is the running
maximum of the portfolio values seen so far, seeded with the given initial
peak. -/
def spec_drawdowns : Rat → List Rat → List Rat
  | _, [] => []
  | peak, value :: rest =>
    let p := max peak value
    ((p - value) / p * 100) :: spec_drawdowns p rest

/-- Embeds `BacktestEngine.run_backtest(strategy_config, start_date, end_date,
initial_balance)`, with the fetched historical data passed as the `bars`
parameter (the data provider is an external collaborator).  `data.empty`
raises `ValueError("No historical data available for ...")`, modelled as
`Except.error`. -/
def run_backtest (config : Config) (start_date end_date : Nat) (bars : List Bar)
    (initial_balance : Rat) : Except String BacktestResult :=
  if bars.isEmpty then
    Except.error ("No historical data available for " ++ config.symbol)
  else
    let final := stateAt config bars initial_balance bars.length
    let final_balance :=
      _calculate_portfolio_value final.balance final.positions (bars.getLastD default).close
    Except.ok
      (_calculate_backtest_metrics final.trades final.equity_curve initial_balance
        final_balance start_date end_date)

/-! ## Helper lemmas -/

theorem spec_max_run_le (p : α → Prop) [DecidablePred p] (cur : Nat) (l : List α) :
    cur ≤ spec_max_run p cur l := by
  induction l generalizing cur with
  | nil => simp [spec_max_run]
  | cons x rest ih =>
    simp only [spec_max_run]
    split
    · exact le_trans (Nat.le_succ cur) (ih (cur + 1))
    · exact le_max_left _ _

theorem streak_foldl_eq_spec_max_run (p : α → Prop) [DecidablePred p] (l : List α)
    (cur best : Nat) (h : cur ≤ best) :
    (l.foldl
        (fun acc x => if p x then (acc.1 + 1, max acc.2 (acc.1 + 1)) else (0, acc.2))
        ((cur, best) : Nat × Nat)).2
      = max best (spec_max_run p cur l) := by
  induction l generalizing cur best with
  | nil => simp [spec_max_run, Nat.max_eq_left h]
  | cons x rest ih =>
    simp only [List.foldl_cons, spec_max_run]
    by_cases hx : p x
    · simp only [hx, if_true]
      rw [ih (cur + 1) (max best (cur + 1)) (le_max_right _ _)]
      have h1 : cur + 1 ≤ spec_max_run p (cur + 1) rest := spec_max_run_le p (cur + 1) rest
      rw [max_assoc]
      rw [Nat.max_eq_right h1]
    · simp only [hx, if_false]
      rw [ih 0 best (Nat.zero_le _)]
      rw [← max_assoc, Nat.max_eq_left h]

/-! ## Claim theorems -/

/-- C3 counterexample: on the trade list SELL(+1), BUY(open), SELL(+1) the
source counts a longest winning streak of 1 — the opening BUY (which carries
no `pnl`) resets the run — while the spec's streak over closing trades only is
2. -/
theorem consecutive_wins_opening_trades_cex :
    _calculate_consecutive_wins
        [{ timestamp := 0, symbol := "S", side := "SELL", quantity := 1, price := 1,
           value := 1, commission := 0, pnl := some 1, new_balance := 1,
           new_positions := [] },
         { timestamp := 1, symbol := "S", side := "BUY", quantity := 1, price := 1,
           value := 1, commission := 0, pnl := none, new_balance := 1,
           new_positions := [] },
         { timestamp := 2, symbol := "S", side := "SELL", quantity := 1, price := 1,
           value := 1, commission := 0, pnl := some 1, new_balance := 1,
           new_positions := [] }] = 1
      ∧ spec_consecutive_wins
        [{ timestamp := 0, symbol := "S", side := "SELL", quantity := 1, price := 1,
           value := 1, commission := 0, pnl := some 1, new_balance := 1,
           new_positions := [] },
         { timestamp := 1, symbol := "S", side := "BUY", quantity := 1, price := 1,
           value := 1, commission := 0, pnl := none, new_balance := 1,
           new_positions := [] },
         { timestamp := 2, symbol := "S", side := "SELL", quantity := 1, price := 1,
           value := 1, commission := 0, pnl := some 1, new_balance := 1,
           new_positions := [] }] = 2 := by
  constructor <;> decide

/-- C3 (amended): `consecutive_wins` / `consecutive_losses` equal the longest
run of consecutive trades over the WHOLE trade list — opening trades included —
whose `realized_pnl` (defaulted to 0 when absent) is `> 0` (resp. `< 0`); any
other trade, in particular every opening BUY, resets the run to zero. -/
theorem consecutive_streaks_reset_on_opening (trades : List TradeRecord) :
    _calculate_consecutive_wins trades
        = spec_max_run (fun t => t.pnl.getD 0 > 0) 0 trades
      ∧ _calculate_consecutive_losses trades
        = spec_max_run (fun t => t.pnl.getD 0 < 0) 0 trades := by
  constructor
  · unfold _calculate_consecutive_wins
    rw [streak_foldl_eq_spec_max_run (fun t => t.pnl.getD 0 > 0) trades 0 0 le_rfl]
    exact Nat.max_eq_right (Nat.zero_le _)
  · unfold _calculate_consecutive_losses
    rw [streak_foldl_eq_spec_max_run (fun t => t.pnl.getD 0 < 0) trades 0 0 le_rfl]
    exact Nat.max_eq_right (Nat.zero_le _)

/-- C9: calling the run with an empty bar series fails with the
data-unavailable error before the simulation loop starts; the `Except.error`
result carries no trades, no equity points and no `BacktestResult`. -/
theorem empty_bars_error (config : Config) (start_date end_date : Nat)
    (initial_balance : Rat) :
    run_backtest config start_date end_date [] initial_balance
      = Except.error ("No historical data available for " ++ config.symbol) := rfl

/-- C10: a SELL decision arriving while a LONG position is open is skipped
whenever the decision's implied price risk `|price − stop_loss|` is `≤ 0`: the
degenerate-risk guard of the position sizing runs before the closing branch,
so no trade record is produced and the state is unchanged. -/
theorem sell_skipped_on_degenerate_risk (signal : Signal) (ts : Nat)
    (price balance : Rat) (positions : Positions) (config : Config) (pos : Position)
    (ha : signal.action = "SELL")
    (hopen : posLookup positions config.symbol = some pos)
    (hside : pos.side = "LONG")
    (hrisk : |price - signal.stop_loss.getD (price * (49 / 50))| ≤ 0) :
    _execute_backtest_trade signal ts price balance positions config = none := by
  simp only [_execute_backtest_trade]
  rw [if_pos hrisk]

/-- C10 witness: a concrete SELL with `stop_loss = price = 100` against an
open LONG position is skipped. -/
theorem sell_skipped_on_degenerate_risk_witness :
    _execute_backtest_trade
        { action := "SELL", confidence := 75, entry_price := 100,
          stop_loss := some 100, take_profit := some 96, reasoning := "r" }
        0 100 1000
        [("BTCUSDT",
          { side := "LONG", quantity := 2, entry_price := 50, stop_loss := 48,
            take_profit := 55 })]
        { symbol := "BTCUSDT", risk_percentage := 1, commission_rate := 1 / 1000 }
      = none :=
  sell_skipped_on_degenerate_risk _ _ _ _ _ _
    { side := "LONG", quantity := 2, entry_price := 50, stop_loss := 48,
      take_profit := 55 }
    rfl (by decide) rfl (by simp)

/-- C1 counterexample: with an open LONG position in the symbol and ample
balance, a BUY decision is executed, not skipped: the cash balance drops from
1000 to 899.9, the stored position is overwritten by the newly sized one, and
a BUY trade record is produced. -/
theorem buy_while_open_not_noop_cex :
    (_execute_backtest_trade
        { action := "BUY", confidence := 75, entry_price := 100, stop_loss := some 90,
          take_profit := some 104, reasoning := "r" }
        0 100 1000
        [("BTCUSDT",
          { side := "LONG", quantity := 1, entry_price := 90, stop_loss := 88,
            take_profit := 95 })]
        { symbol := "BTCUSDT", risk_percentage := 1, commission_rate := 1 / 1000 }).map
        (fun t => (t.new_balance, t.new_positions))
      = some (8999 / 10,
          [("BTCUSDT",
            { side := "LONG", quantity := 1, entry_price := 100, stop_loss := 90,
              take_profit := 104 })]) := by
  norm_num [_execute_backtest_trade, posInsert]

/-- C1 (amended): a BUY decision while an open LONG position exists in the
symbol is NOT a no-op: provided the sizing guards pass (positive price risk,
positive price) and funds suffice, it executes like any BUY — cash decreases
by notional plus commission, the stored position is replaced by the newly
sized one, and a BUY trade record is produced. -/
theorem buy_while_open_executes (signal : Signal) (ts : Nat) (price balance : Rat)
    (positions : Positions) (config : Config) (pos : Position)
    (ha : signal.action = "BUY")
    (hopen : posLookup positions config.symbol = some pos)
    (hside : pos.side = "LONG")
    (hp : 0 < price)
    (hrisk : 0 < |price - signal.stop_loss.getD (price * (49 / 50))|)
    (hfunds : ¬ balance <
      (if balance * (config.risk_percentage / 100) /
            |price - signal.stop_loss.getD (price * (49 / 50))| * price
          > balance * (19 / 20) then
        balance * (19 / 20) / price
      else balance * (config.risk_percentage / 100) /
            |price - signal.stop_loss.getD (price * (49 / 50))|) * price
      + (if balance * (config.risk_percentage / 100) /
            |price - signal.stop_loss.getD (price * (49 / 50))| * price
          > balance * (19 / 20) then
        balance * (19 / 20) / price
      else balance * (config.risk_percentage / 100) /
            |price - signal.stop_loss.getD (price * (49 / 50))|) * price
        * config.commission_rate) :
    _execute_backtest_trade signal ts price balance positions config
      = some { timestamp := ts
               symbol := config.symbol
               side := "BUY"
               quantity :=
                 if balance * (config.risk_percentage / 100) /
                      |price - signal.stop_loss.getD (price * (49 / 50))| * price
                    > balance * (19 / 20) then
                   balance * (19 / 20) / price
                 else balance * (config.risk_percentage / 100) /
                      |price - signal.stop_loss.getD (price * (49 / 50))|
               price := price
               value :=
                 (if balance * (config.risk_percentage / 100) /
                      |price - signal.stop_loss.getD (price * (49 / 50))| * price
                    > balance * (19 / 20) then
                   balance * (19 / 20) / price
                 else balance * (config.risk_percentage / 100) /
                      |price - signal.stop_loss.getD (price * (49 / 50))|) * price
               commission :=
                 (if balance * (config.risk_percentage / 100) /
                      |price - signal.stop_loss.getD (price * (49 / 50))| * price
                    > balance * (19 / 20) then
                   balance * (19 / 20) / price
                 else balance * (config.risk_percentage / 100) /
                      |price - signal.stop_loss.getD (price * (49 / 50))|) * price
                   * config.commission_rate
               pnl := none
               new_balance := balance
                 - (if balance * (config.risk_percentage / 100) /
                      |price - signal.stop_loss.getD (price * (49 / 50))| * price
                    > balance * (19 / 20) then
                   balance * (19 / 20) / price
                 else balance * (config.risk_percentage / 100) /
                      |price - signal.stop_loss.getD (price * (49 / 50))|) * price
                 - (if balance * (config.risk_percentage / 100) /
                      |price - signal.stop_loss.getD (price * (49 / 50))| * price
                    > balance * (19 / 20) then
                   balance * (19 / 20) / price
                 else balance * (config.risk_percentage / 100) /
                      |price - signal.stop_loss.getD (price * (49 / 50))|) * price
                   * config.commission_rate
               new_positions := posInsert positions config.symbol
                 { side := "LONG"
                   quantity :=
                     if balance * (config.risk_percentage / 100) /
                          |price - signal.stop_loss.getD (price * (49 / 50))| * price
                        > balance * (19 / 20) then
                       balance * (19 / 20) / price
                     else balance * (config.risk_percentage / 100) /
                          |price - signal.stop_loss.getD (price * (49 / 50))|
                   entry_price := price
                   stop_loss := signal.stop_loss.getD (price * (49 / 50))
                   take_profit := signal.take_profit.getD (price * (26 / 25)) } } := by
  simp only [_execute_backtest_trade]
  rw [if_neg (not_le.mpr hrisk)]
  rw [if_neg (fun hc => absurd hc.2 (ne_of_gt hp))]
  rw [if_pos ha, if_neg hfunds]

/-- C1 witness: the amended theorem instantiated at the counterexample state:
BUY with entry 100 / stop 90, balance 1000, risk 1%, commission 0.1%, against
an open LONG position. -/
theorem buy_while_open_executes_witness :
    _execute_backtest_trade
        { action := "BUY", confidence := 75, entry_price := 100, stop_loss := some 90,
          take_profit := some 104, reasoning := "r" }
        0 100 1000
        [("BTCUSDT",
          { side := "LONG", quantity := 1, entry_price := 90, stop_loss := 88,
            take_profit := 95 })]
        { symbol := "BTCUSDT", risk_percentage := 1, commission_rate := 1 / 1000 }
      = some { timestamp := 0
               symbol := "BTCUSDT"
               side := "BUY"
               quantity := 1
               price := 100
               value := 100
               commission := 1 / 10
               pnl := none
               new_balance := 8999 / 10
               new_positions :=
                 [("BTCUSDT",
                   { side := "LONG", quantity := 1, entry_price := 100, stop_loss := 90,
                     take_profit := 104 })] } := by
  have h := buy_while_open_executes
    { action := "BUY", confidence := 75, entry_price := 100, stop_loss := some 90,
      take_profit := some 104, reasoning := "r" }
    0 100 1000
    [("BTCUSDT",
      { side := "LONG", quantity := 1, entry_price := 90, stop_loss := 88,
        take_profit := 95 })]
    { symbol := "BTCUSDT", risk_percentage := 1, commission_rate := 1 / 1000 }
    { side := "LONG", quantity := 1, entry_price := 90, stop_loss := 88,
      take_profit := 95 }
    rfl (by decide) rfl (by norm_num) (by norm_num) (by norm_num)
  rw [h]
  norm_num [posInsert]

/-- C2 counterexample: closing a LONG of 2 units entered at 50 (entry
commission 0.1) by a SELL at price 100 with stop 99, balance 1000, risk 1%,
commission rate 0.1%: the source records `realized_pnl = 98.85` (it subtracts
the commission of the freshly sized signal, 0.95), while the spec formula
`sell_notional − quantity×entry_price − entry_commission − sell_commission`
gives `99.7`. -/
theorem sell_pnl_not_entry_commission_cex :
    (_execute_backtest_trade
        { action := "SELL", confidence := 75, entry_price := 100, stop_loss := some 99,
          take_profit := some 96, reasoning := "r" }
        0 100 1000
        [("BTCUSDT",
          { side := "LONG", quantity := 2, entry_price := 50, stop_loss := 48,
            take_profit := 55 })]
        { symbol := "BTCUSDT", risk_percentage := 1, commission_rate := 1 / 1000 }).map
        (fun t => t.pnl)
      = some (some (1977 / 20))
    ∧ spec_realized_pnl
        { side := "LONG", quantity := 2, entry_price := 50, stop_loss := 48,
          take_profit := 55 } 100 (1 / 1000)
        = 997 / 10
    ∧ (1977 / 20 : Rat) ≠ 997 / 10 := by
  refine ⟨?_, ?_, ?_⟩ <;>
    norm_num [_execute_backtest_trade, spec_realized_pnl, posLookup, posErase,
      (by decide : (("SELL" : String) = "BUY") = False)]

/-- C2 (amended): a SELL while a LONG position is open (with positive price
risk and positive price) closes the position: cash increases by
`sell_notional − sell_commission` and the record carries
`realized_pnl = sell_notional − quantity×entry_price − C − sell_commission`,
where `C` is the commission of the position the sizer would open for the SELL
signal at the current balance and price (NOT the commission charged on the
opening BUY trade). -/
theorem sell_close_updates_cash_and_pnl (signal : Signal) (ts : Nat)
    (price balance : Rat) (positions : Positions) (config : Config) (pos : Position)
    (ha : signal.action = "SELL")
    (hopen : posLookup positions config.symbol = some pos)
    (hside : pos.side = "LONG")
    (hp : 0 < price)
    (hrisk : 0 < |price - signal.stop_loss.getD (price * (49 / 50))|) :
    _execute_backtest_trade signal ts price balance positions config
      = some { timestamp := ts
               symbol := config.symbol
               side := "SELL"
               quantity := pos.quantity
               price := price
               value := pos.quantity * price
               commission := pos.quantity * price * config.commission_rate
               pnl := some (pos.quantity * price - pos.quantity * pos.entry_price
                 - (if balance * (config.risk_percentage / 100) /
                      |price - signal.stop_loss.getD (price * (49 / 50))| * price
                    > balance * (19 / 20) then
                     balance * (19 / 20) / price
                   else balance * (config.risk_percentage / 100) /
                      |price - signal.stop_loss.getD (price * (49 / 50))|) * price
                   * config.commission_rate
                 - pos.quantity * price * config.commission_rate)
               new_balance := balance + pos.quantity * price
                 - pos.quantity * price * config.commission_rate
               new_positions := posErase positions config.symbol } := by
  simp only [_execute_backtest_trade]
  rw [if_neg (not_le.mpr hrisk)]
  rw [if_neg (fun hc => absurd hc.2 (ne_of_gt hp))]
  have hnb : ¬ signal.action = "BUY" := by rw [ha]; decide
  rw [if_neg hnb, if_pos ha, hopen]
  simp only [hside, if_true]

/-- C2 witness: the amended theorem instantiated at the counterexample state:
the SELL close records `pnl = 98.85` and raises cash to `1199.8 = 1000 + 200
− 0.2`. -/
theorem sell_close_updates_cash_and_pnl_witness :
    _execute_backtest_trade
        { action := "SELL", confidence := 75, entry_price := 100, stop_loss := some 99,
          take_profit := some 96, reasoning := "r" }
        0 100 1000
        [("BTCUSDT",
          { side := "LONG", quantity := 2, entry_price := 50, stop_loss := 48,
            take_profit := 55 })]
        { symbol := "BTCUSDT", risk_percentage := 1, commission_rate := 1 / 1000 }
      = some { timestamp := 0
               symbol := "BTCUSDT"
               side := "SELL"
               quantity := 2
               price := 100
               value := 200
               commission := 1 / 5
               pnl := some (1977 / 20)
               new_balance := 5999 / 5
               new_positions := [] } := by
  have h := sell_close_updates_cash_and_pnl
    { action := "SELL", confidence := 75, entry_price := 100, stop_loss := some 99,
      take_profit := some 96, reasoning := "r" }
    0 100 1000
    [("BTCUSDT",
      { side := "LONG", quantity := 2, entry_price := 50, stop_loss := 48,
        take_profit := 55 })]
    { symbol := "BTCUSDT", risk_percentage := 1, commission_rate := 1 / 1000 }
    { side := "LONG", quantity := 2, entry_price := 50, stop_loss := 48,
      take_profit := 55 }
    rfl (by decide) rfl (by norm_num) (by norm_num)
  rw [h]
  norm_num [posErase]

/-- C4: every accepted BUY trade has notional value at most 95% of the
pre-trade cash balance, and whenever the initially sized notional
`risk_amount / price_risk × price` exceeds that cap, the executed quantity is
exactly `(balance × 0.95) / price`. -/
theorem buy_notional_cap (signal : Signal) (ts : Nat) (price balance : Rat)
    (positions : Positions) (config : Config) (tr : TradeRecord)
    (h : _execute_backtest_trade signal ts price balance positions config = some tr)
    (hside : tr.side = "BUY") :
    tr.value ≤ balance * (19 / 20)
    ∧ (balance * (config.risk_percentage / 100) /
          |price - signal.stop_loss.getD (price * (49 / 50))| * price
        > balance * (19 / 20) →
        tr.quantity = balance * (19 / 20) / price) := by
  simp only [_execute_backtest_trade] at h
  split at h
  · exact absurd h (by simp)
  split at h
  next hcapzero =>
    exact absurd h (by simp)
  next hcapzero =>
    split at h
    next hbuy =>
      split at h
      next hcap =>
        split at h
        · exact absurd h (by simp)
        next hfunds =>
          injection h with h
          subst h
          have hpne : price ≠ 0 := fun h0 => hcapzero ⟨hcap, h0⟩
          dsimp only
          constructor
          · rw [div_mul_cancel₀ _ hpne]
          · intro hcap2
            rfl
      next hcap =>
        split at h
        · exact absurd h (by simp)
        next hfunds =>
          injection h with h
          subst h
          dsimp only
          constructor
          · exact not_lt.mp hcap
          · intro hcap2
            exact absurd hcap2 hcap
    next hnotbuy =>
      split at h
      next hsell =>
        split at h
        next position hlook =>
          split at h
          next hlong =>
            injection h with h
            subst h
            exact absurd hside (by simp)
          next hlong =>
            exact absurd h (by simp)
        next hlook =>
          exact absurd h (by simp)
      next hnotsell =>
        exact absurd h (by simp)

/-- C4 witness: a concrete accepted BUY (balance 1000, risk 1%, entry 100,
stop 90) has notional 100 ≤ 950, and the cap clause holds vacuously (the
initial sizing does not exceed the cap). -/
theorem buy_notional_cap_witness :
    (100 : Rat) ≤ 1000 * (19 / 20)
    ∧ ((1000 : Rat) * ((1 : Rat) / 100) /
          |(100 : Rat) - (some (90 : Rat)).getD (100 * (49 / 50))| * 100
        > 1000 * (19 / 20) →
        (1 : Rat) = 1000 * (19 / 20) / 100) :=
  buy_notional_cap
    { action := "BUY", confidence := 75, entry_price := 100, stop_loss := some 90,
      take_profit := some 104, reasoning := "r" }
    0 100 1000 []
    { symbol := "BTCUSDT", risk_percentage := 1, commission_rate := 1 / 1000 }
    { timestamp := 0, symbol := "BTCUSDT", side := "BUY", quantity := 1, price := 100,
      value := 100, commission := 1 / 10, pnl := none, new_balance := 8999 / 10,
      new_positions :=
        [("BTCUSDT",
          { side := "LONG", quantity := 1, entry_price := 100, stop_loss := 90,
            take_profit := 104 })] }
    (by norm_num [_execute_backtest_trade, posInsert]) rfl

theorem take_getD (l : List α) (i : Nat) (d : α) :
    (l.take (i + 1)).getD i d = l.getD i d := by
  induction l generalizing i with
  | nil => rfl
  | cons x xs ih =>
    cases i with
    | zero => rfl
    | succ i =>
      simp only [List.take_succ_cons, List.getD_cons_succ]
      exact ih i

/-- C5: the signal generated at bar index `i` depends only on the bars up to
and including index `i`: two bar series agreeing on their first `i+1` bars
produce the same decision at bar `i`, whatever comes later. -/
theorem signal_no_lookahead (config : Config) (b1 b2 : List Bar) (i : Nat)
    (h : b1.take (i + 1) = b2.take (i + 1)) :
    signalAtBar config b1 i = signalAtBar config b2 i := by
  unfold signalAtBar
  rw [← take_getD b1 i default, ← take_getD b2 i default, h]

/-- C5 witness: a one-bar series and a two-bar extension of it agree on the
signal at bar 0. -/
theorem signal_no_lookahead_witness :
    signalAtBar { symbol := "BTCUSDT", risk_percentage := 1, commission_rate := 1 / 1000 }
        [{ timestamp := 0, open_price := 1, high := 1, low := 1, close := 1, volume := 1 }] 0
      = signalAtBar { symbol := "BTCUSDT", risk_percentage := 1, commission_rate := 1 / 1000 }
        [{ timestamp := 0, open_price := 1, high := 1, low := 1, close := 1, volume := 1 },
         { timestamp := 1, open_price := 2, high := 2, low := 2, close := 2, volume := 2 }] 0 :=
  signal_no_lookahead _ _ _ 0 rfl

theorem stepBar_equity_curve (config : Config) (bars : List Bar) (st : RunState) (i : Nat) :
    (stepBar config bars st i).equity_curve
      = st.equity_curve ++ [equityPointFor st (bars.getD i default)] := rfl

theorem stateAt_equity_curve (config : Config) (bars : List Bar) (ib : Rat) (n : Nat) :
    (stateAt config bars ib n).equity_curve
      = (List.range n).map
          (fun j => equityPointFor (stateAt config bars ib j) (bars.getD j default)) := by
  induction n with
  | zero => rfl
  | succ n ih =>
    show (stepBar config bars (stateAt config bars ib n) n).equity_curve = _
    rw [stepBar_equity_curve, ih, List.range_succ, List.map_append]
    rfl

/-- C6: for a non-empty bar series the run succeeds and its equity curve has
exactly one point per input bar, in input order; the point for bar `j` is
computed from the loop state as it stands when bar `j` is reached — before
the bar's signal is evaluated — so it is appended unconditionally, also on
bars with no trade. -/
theorem equity_curve_one_point_per_bar (config : Config) (sd ed : Nat)
    (bars : List Bar) (ib : Rat) (h : bars ≠ []) :
    ∃ r, run_backtest config sd ed bars ib = Except.ok r
      ∧ r.equity_curve
          = (List.range bars.length).map
              (fun j => equityPointFor (stateAt config bars ib j) (bars.getD j default))
      ∧ r.equity_curve.length = bars.length := by
  have hne : bars.isEmpty = false := by
    simpa [List.isEmpty_iff] using h
  have hrun : run_backtest config sd ed bars ib
      = Except.ok
        (_calculate_backtest_metrics (stateAt config bars ib bars.length).trades
          (stateAt config bars ib bars.length).equity_curve ib
          (_calculate_portfolio_value (stateAt config bars ib bars.length).balance
            (stateAt config bars ib bars.length).positions (bars.getLastD default).close)
          sd ed) := by
    simp only [run_backtest, hne]
    rfl
  refine ⟨_, hrun, ?_, ?_⟩
  · show (stateAt config bars ib bars.length).equity_curve = _
    exact stateAt_equity_curve config bars ib bars.length
  · show (stateAt config bars ib bars.length).equity_curve.length = bars.length
    rw [stateAt_equity_curve]
    simp

/-- C6 witness: a concrete one-bar run produces exactly one equity point. -/
theorem equity_curve_one_point_per_bar_witness :
    ∃ r, run_backtest
          { symbol := "BTCUSDT", risk_percentage := 1, commission_rate := 1 / 1000 }
          0 1
          [{ timestamp := 0, open_price := 1, high := 1, low := 1, close := 1, volume := 1 }]
          100
        = Except.ok r
      ∧ r.equity_curve
          = (List.range 1).map
              (fun j => equityPointFor
                (stateAt
                  { symbol := "BTCUSDT", risk_percentage := 1, commission_rate := 1 / 1000 }
                  [{ timestamp := 0, open_price := 1, high := 1, low := 1, close := 1,
                     volume := 1 }]
                  100 j)
                ([{ timestamp := 0, open_price := 1, high := 1, low := 1, close := 1,
                    volume := 1 }].getD j default))
      ∧ r.equity_curve.length = 1 :=
  equity_curve_one_point_per_bar _ 0 1 _ 100 (by simp)

theorem foldr_max_max (L : List Rat) (a b : Rat) :
    L.foldr max (max a b) = max b (L.foldr max a) := by
  induction L with
  | nil => exact max_comm a b
  | cons x xs ih =>
    simp only [List.foldr_cons, ih, max_left_comm]

theorem drawdownLoop_eq_spec (L : List Rat) (peak m : Rat) :
    drawdownLoop L peak m = (spec_drawdowns peak L).foldr max m := by
  induction L generalizing peak m with
  | nil => rfl
  | cons v rest ih =>
    simp only [drawdownLoop, spec_drawdowns, List.foldr_cons]
    have hpk : (if v > peak then v else peak) = max peak v := by
      rcases lt_or_le peak v with hlt | hle
      · rw [if_pos hlt, max_eq_right hlt.le]
      · rw [if_neg (not_lt.mpr hle), max_eq_left hle]
    rw [hpk, ih, foldr_max_max]

theorem le_foldr_max (L : List Rat) (b : Rat) : b ≤ L.foldr max b := by
  induction L with
  | nil => exact le_refl b
  | cons x xs ih => exact le_trans ih (le_max_right x _)

theorem chain_spec_drawdowns (L : List Rat) (peak : Rat)
    (h : List.Chain (· ≤ ·) peak L) :
    spec_drawdowns peak L = L.map (fun _ => 0) := by
  induction L generalizing peak with
  | nil => rfl
  | cons v rest ih =>
    cases h with
    | cons hpv hrest =>
      simp only [spec_drawdowns, List.map_cons]
      rw [max_eq_right hpv, sub_self, zero_div, zero_mul]
      exact congrArg (0 :: ·) (ih v hrest)

theorem foldr_max_zeros (L : List Rat) :
    (L.map (fun _ => (0 : Rat))).foldr max 0 = 0 := by
  induction L with
  | nil => rfl
  | cons x xs ih => simp only [List.map_cons, List.foldr_cons, ih, max_self]

/-- C7: on a non-empty equity curve with positive first portfolio value (the
domain where the Python float division `(peak − value) / peak` is defined),
`max_drawdown` equals the maximum over all points of
`(peak − value) / peak × 100` with `peak` the running maximum seeded from the
first point; it is never negative; and it is 0 whenever the portfolio-value
sequence is non-decreasing. -/
theorem max_drawdown_spec (trades : List TradeRecord) (ec : List EquityPoint)
    (ib fb : Rat) (sd ed : Nat) (v : Rat) (rest : List Rat)
    (hec : ec.map (·.portfolio_value) = v :: rest)
    (hv : 0 < v) :
    (_calculate_backtest_metrics trades ec ib fb sd ed).max_drawdown
        = (spec_drawdowns v (v :: rest)).foldr max 0
      ∧ 0 ≤ (_calculate_backtest_metrics trades ec ib fb sd ed).max_drawdown
      ∧ (List.Chain' (· ≤ ·) (v :: rest) →
          (_calculate_backtest_metrics trades ec ib fb sd ed).max_drawdown = 0) := by
  have hmd : (_calculate_backtest_metrics trades ec ib fb sd ed).max_drawdown
      = maxDrawdownOf (v :: rest) := by
    show maxDrawdownOf (ec.map (·.portfolio_value)) = _
    rw [hec]
  have heq : maxDrawdownOf (v :: rest) = (spec_drawdowns v (v :: rest)).foldr max 0 := by
    show drawdownLoop (v :: rest) v 0 = _
    exact drawdownLoop_eq_spec _ _ _
  refine ⟨hmd.trans heq, ?_, ?_⟩
  · rw [hmd, heq]
    exact le_foldr_max _ 0
  · intro hchain
    rw [hmd, heq]
    have hch : List.Chain (· ≤ ·) v (v :: rest) := List.Chain.cons le_rfl hchain
    rw [chain_spec_drawdowns _ _ hch, foldr_max_zeros]

/-- C7 witness: on the non-decreasing two-point curve (100, 110) the maximum
drawdown is 0. -/
theorem max_drawdown_spec_witness :
    (_calculate_backtest_metrics []
        [{ timestamp := 0, balance := 100, portfolio_value := 100, price := 1 },
         { timestamp := 1, balance := 110, portfolio_value := 110, price := 1 }]
        100 110 0 1).max_drawdown = 0 :=
  (max_drawdown_spec []
      [{ timestamp := 0, balance := 100, portfolio_value := 100, price := 1 },
       { timestamp := 1, balance := 110, portfolio_value := 110, price := 1 }]
      100 110 0 1 100 [110] rfl (by norm_num)).2.2
    (by norm_num [List.chain'_cons])

/-- C8: `profit_factor` equals `gross_profit / gross_loss` when
`gross_loss > 0` and is the distinguished `+∞` sentinel when `gross_loss = 0`
— in particular whenever there are no losing trades — and it equals the
finite value 0 when `gross_profit = 0` and `gross_loss > 0`; the computation
is total (no crash, no NaN: `ProfitFactor` has no NaN inhabitant). -/
theorem profit_factor_spec (trades : List TradeRecord) (ec : List EquityPoint)
    (ib fb : Rat) (sd ed : Nat) :
    ((_calculate_backtest_metrics trades ec ib fb sd ed).profit_factor
        = if 0 < gross_loss_of trades then
            ProfitFactor.finite (gross_profit_of trades / gross_loss_of trades)
          else ProfitFactor.inf)
      ∧ (trades.filter (fun t => t.pnl.getD 0 < 0) = [] →
          (_calculate_backtest_metrics trades ec ib fb sd ed).profit_factor
            = ProfitFactor.inf)
      ∧ (gross_profit_of trades = 0 → 0 < gross_loss_of trades →
          (_calculate_backtest_metrics trades ec ib fb sd ed).profit_factor
            = ProfitFactor.finite 0) := by
  refine ⟨rfl, ?_, ?_⟩
  · intro hfil
    show profit_factor_of trades = ProfitFactor.inf
    unfold profit_factor_of
    have hgl : gross_loss_of trades = 0 := by
      unfold gross_loss_of
      rw [hfil]
      simp
    rw [hgl]
    simp
  · intro hgp hgl
    show profit_factor_of trades = ProfitFactor.finite 0
    unfold profit_factor_of
    rw [if_pos hgl, hgp, zero_div]

/-- C8 witness: with no trades at all there are no losing trades, and the
profit factor is the infinity sentinel. -/
theorem profit_factor_spec_witness :
    (_calculate_backtest_metrics [] [] 100 100 0 1).profit_factor
      = ProfitFactor.inf :=
  (profit_factor_spec [] [] 100 100 0 1).2.1 rfl
